import Mathlib

/-!
Shallow embedding of `src/game_session_manager.py` (classes `SessionState`,
`GameSession`, `GameSessionManager`).

Modelling conventions:
* `datetime.now()` is passed explicitly as a parameter `now : Int` (a tick
  count); `timedelta(minutes=m)` becomes `minutesDelta m = m * 60` ticks,
  so the comparisons `time_since_interaction > timedelta(minutes=m)` keep
  their exact order structure.
* Python `dict` (insertion-ordered, unique keys) becomes an association
  list `List (Int × β)`: `lookupA` is `d[k]` / `k in d`, `insertA` is
  `d[k] = v` (update in place, else append, as CPython does), `eraseA`
  is `del d[k]` / `d.pop(k, None)`.
* In-place mutation of a `GameSession` object that the registry aliases is
  modelled by writing the updated session back into the registry.
* The injected chat client / notifier is a function
  `channel_id → user_id → NotifyOutcome`: `noChannel` models
  `client.get_channel` returning `None`, `delivered` a successful
  `channel.send`, `failed` a `send` that raises.  Each actual `send` call
  is recorded as a `SendEvent` so that notification behaviour is
  observable.
* The guard `if session.message_id:` in `end_session` is translated as a
  presence test on the optional field: message ids are platform-assigned
  snowflakes, always nonzero, so Python truthiness coincides with
  presence.
-/

inductive SessionState where
  | active
  | warning
  | expired
  | ended
deriving DecidableEq, Repr

structure GameSession where
  user_id : Int
  channel_id : Int
  last_interaction : Int
  message_id : Option Int
  state : SessionState
  warning_sent : Bool
deriving DecidableEq, Repr

/-- Constructor `GameSession.__init__(user_id, channel_id)` at time `now`. -/
def GameSession.new (user_id channel_id now : Int) : GameSession :=
  { user_id := user_id
    channel_id := channel_id
    last_interaction := now
    message_id := none
    state := SessionState.active
    warning_sent := false }

/-- Method `GameSession.update_interaction`. -/
def update_interaction (s : GameSession) (now : Int) : GameSession :=
  { s with last_interaction := now
           state := SessionState.active
           warning_sent := false }

/-- Method `GameSession.set_message`. -/
def set_message (s : GameSession) (message_id : Int) : GameSession :=
  { s with message_id := some message_id }

/-- Duration of `timedelta(minutes=m)` in ticks. -/
def minutesDelta (m : Int) : Int := m * 60

/-- Method `GameSession.get_state(warning_minutes, timeout_minutes)`: returns the
updated session (the Python method mutates `self.state`) together with the
returned state. -/
def get_state (s : GameSession) (warning_minutes timeout_minutes now : Int) :
    GameSession × SessionState :=
  if s.state = SessionState.ended then
    (s, SessionState.ended)
  else
    let time_since_interaction := now - s.last_interaction
    let s1 :=
      if time_since_interaction > minutesDelta timeout_minutes then
        { s with state := SessionState.expired }
      else if time_since_interaction > minutesDelta warning_minutes then
        { s with state := SessionState.warning }
      else
        s
    (s1, s1.state)

/-- Association-list lookup: `d[k]` / `k in d`. -/
def lookupA {β : Type} (l : List (Int × β)) (k : Int) : Option β :=
  match l with
  | [] => none
  | (k1, v1) :: t => if k1 = k then some v1 else lookupA t k

/-- Association-list store: `d[k] = v` (update in place, else append). -/
def insertA {β : Type} (l : List (Int × β)) (k : Int) (v : β) : List (Int × β) :=
  match l with
  | [] => [(k, v)]
  | (k1, v1) :: t => if k1 = k then (k, v) :: t else (k1, v1) :: insertA t k v

/-- Association-list delete: `del d[k]` / `d.pop(k, None)`. -/
def eraseA {β : Type} (l : List (Int × β)) (k : Int) : List (Int × β) :=
  match l with
  | [] => []
  | (k1, v1) :: t => if k1 = k then t else (k1, v1) :: eraseA t k

structure GameSessionManager where
  sessions : List (Int × GameSession)
  message_to_session : List (Int × Int)
  warning_minutes : Int
  timeout_minutes : Int
deriving DecidableEq, Repr

/-- Constructor `GameSessionManager.__init__` (defaults 20 / 30 minutes). -/
def GameSessionManager.new (warning_minutes timeout_minutes : Int) : GameSessionManager :=
  { sessions := []
    message_to_session := []
    warning_minutes := warning_minutes
    timeout_minutes := timeout_minutes }

/-- Method `GameSessionManager.create_session`: returns the updated manager plus the
`(success, message)` pair. -/
def create_session (m : GameSessionManager) (user_id channel_id now : Int) :
    GameSessionManager × Bool × String :=
  match lookupA m.sessions user_id with
  | some s =>
    if s.state ≠ SessionState.ended then
      (m, false, "You already have an active game! Use `/end` to end your current game first.")
    else
      ({ m with sessions := insertA m.sessions user_id (GameSession.new user_id channel_id now) },
       true, "New game session created successfully!")
  | none =>
    ({ m with sessions := insertA m.sessions user_id (GameSession.new user_id channel_id now) },
     true, "New game session created successfully!")

/-- Method `GameSessionManager.end_session`. -/
def end_session (m : GameSessionManager) (user_id : Int) : GameSessionManager :=
  match lookupA m.sessions user_id with
  | none => m
  | some s =>
    let idx :=
      match s.message_id with
      | some mid => eraseA m.message_to_session mid
      | none => m.message_to_session
    { m with sessions := eraseA m.sessions user_id
             message_to_session := idx }

/-- Method `GameSessionManager.get_session`: returns the updated manager (the found
session is mutated in place by `update_interaction`) plus the result. -/
def get_session (m : GameSessionManager) (user_id now : Int) :
    GameSessionManager × Option GameSession :=
  match lookupA m.sessions user_id with
  | some s =>
    if s.state ≠ SessionState.ended then
      let s1 := update_interaction s now
      ({ m with sessions := insertA m.sessions user_id s1 }, some s1)
    else
      (m, none)
  | none => (m, none)

/-- Method `GameSessionManager.register_message`. -/
def register_message (m : GameSessionManager) (user_id message_id : Int) :
    GameSessionManager :=
  match lookupA m.sessions user_id with
  | some s =>
    { m with sessions := insertA m.sessions user_id (set_message s message_id)
             message_to_session := insertA m.message_to_session message_id user_id }
  | none => m

/-- Outcome of one notifier delivery: `client.get_channel` returned `None`;
`channel.send` succeeded; or `channel.send` raised. -/
inductive NotifyOutcome where
  | noChannel
  | delivered
  | failed
deriving DecidableEq, Repr

inductive SendKind where
  | warn
  | expire
deriving DecidableEq, Repr

/-- One actual `channel.send` call made during the sweep. -/
structure SendEvent where
  kind : SendKind
  channel : Int
  user : Int
  delivered : Bool
deriving DecidableEq, Repr

/-- Loop body of `GameSessionManager.check_sessions` for one
`(user_id, session)` item: the updated session, the optional entry appended
to `expired_sessions`, and the `channel.send` calls made. -/
def check_one (warning_minutes timeout_minutes now : Int)
    (notify : Int → Int → NotifyOutcome) (user_id : Int) (s : GameSession) :
    GameSession × Option Int × List SendEvent :=
  let r := get_state s warning_minutes timeout_minutes now
  let s1 := r.1
  if r.2 = SessionState.warning ∧ s1.warning_sent = false then
    match notify s1.channel_id user_id with
    | NotifyOutcome.noChannel => (s1, none, [])
    | NotifyOutcome.delivered =>
      ({ s1 with warning_sent := true }, none,
       [{ kind := SendKind.warn, channel := s1.channel_id, user := user_id, delivered := true }])
    | NotifyOutcome.failed =>
      (s1, none,
       [{ kind := SendKind.warn, channel := s1.channel_id, user := user_id, delivered := false }])
  else if r.2 = SessionState.expired then
    match notify s1.channel_id user_id with
    | NotifyOutcome.noChannel => (s1, some user_id, [])
    | NotifyOutcome.delivered =>
      (s1, some user_id,
       [{ kind := SendKind.expire, channel := s1.channel_id, user := user_id, delivered := true }])
    | NotifyOutcome.failed =>
      (s1, some user_id,
       [{ kind := SendKind.expire, channel := s1.channel_id, user := user_id, delivered := false }])
  else
    (s1, none, [])

/-- Method `GameSessionManager.check_sessions`: the collect phase iterates the
registry items in order, mutating each session in place and recording
expired user ids; then every recorded user is passed to `end_session`.
Returns the updated manager, the returned list of expired user ids, and
the `channel.send` calls made. -/
def check_sessions (m : GameSessionManager) (notify : Int → Int → NotifyOutcome)
    (now : Int) : GameSessionManager × List Int × List SendEvent :=
  let sessions1 := m.sessions.map
    (fun p => (p.1, (check_one m.warning_minutes m.timeout_minutes now notify p.1 p.2).1))
  let expired := m.sessions.filterMap
    (fun p => (check_one m.warning_minutes m.timeout_minutes now notify p.1 p.2).2.1)
  let events := (m.sessions.map
    (fun p => (check_one m.warning_minutes m.timeout_minutes now notify p.1 p.2).2.2)).flatten
  let m1 := { m with sessions := sessions1 }
  (expired.foldl end_session m1, expired, events)

/-- Method `GameSessionManager.handle_interaction` with `interaction.user.id = user_id`
and `interaction.message.id = message_id`. -/
def handle_interaction (m : GameSessionManager) (user_id message_id now : Int) :
    GameSessionManager × Bool × String :=
  match lookupA m.message_to_session message_id with
  | none => (m, false, "This game session is no longer active.")
  | some session_user_id =>
    if user_id ≠ session_user_id then
      (m, false, "This is not your game session!")
    else
      let r := get_session m session_user_id now
      match r.2 with
      | none => (r.1, false, "This game session has expired. Please start a new game.")
      | some s =>
        let g := get_state s m.warning_minutes m.timeout_minutes now
        let m2 := { r.1 with sessions := insertA r.1.sessions session_user_id g.1 }
        if g.2 = SessionState.expired then
          (end_session m2 session_user_id, false,
           "This game session has expired due to inactivity. Please start a new game.")
        else
          let s2 := update_interaction g.1 now
          ({ m2 with sessions := insertA m2.sessions session_user_id s2 }, true, "")

/-- Well-formedness that Python `dict`s guarantee: keys of both registries
are pairwise distinct. -/
def Wf (m : GameSessionManager) : Prop :=
  (m.sessions.map Prod.fst).Nodup ∧ (m.message_to_session.map Prod.fst).Nodup

/-! Concrete states used to exercise the operations. -/

/-- An empty manager with the default 20 / 30 minute thresholds. -/
def mgr0 : GameSessionManager := GameSessionManager.new 20 30

/-- An active session for user 1 in channel 100, created at tick 0 and
bound to message 201. -/
def sessA : GameSession :=
  { user_id := 1, channel_id := 100, last_interaction := 0,
    message_id := some 201, state := SessionState.active, warning_sent := false }

/-- A manager holding `sessA` with its message binding registered. -/
def mgrA : GameSessionManager :=
  { sessions := [(1, sessA)], message_to_session := [(201, 1)],
    warning_minutes := 20, timeout_minutes := 30 }

/-- A session whose cached state is `warning` (no inactivity yet). -/
def sessW : GameSession :=
  { user_id := 1, channel_id := 100, last_interaction := 0,
    message_id := none, state := SessionState.warning, warning_sent := false }

/-- A terminated session. -/
def sessE : GameSession :=
  { user_id := 1, channel_id := 100, last_interaction := 0,
    message_id := none, state := SessionState.ended, warning_sent := true }

/-- A notifier whose every delivery succeeds. -/
def notifyAll : Int → Int → NotifyOutcome := fun _ _ => NotifyOutcome.delivered

/-- Run of the stale-binding scenario: create a session for user 1, bind
message 201, then bind message 202 over it. -/
def mgrC1a : GameSessionManager := (create_session mgr0 1 100 0).1

def mgrC1b : GameSessionManager := register_message mgrC1a 1 201

def mgrC1c : GameSessionManager := register_message mgrC1b 1 202

/-- Continuation of the stale-binding scenario: end the session of user 1. -/
def mgrC1d : GameSessionManager := end_session mgrC1c 1

/-- Continuation of the stale-binding scenario: recreate a fresh session for user 1 at tick 10. -/
def mgrC1e : GameSessionManager := (create_session mgrC1d 1 100 10).1

/-- A session created at tick 0 with message 201 bound, for the
expired-interaction scenario. -/
def mgrC2 : GameSessionManager := register_message (create_session mgr0 1 100 0).1 1 201

/-! Association-list lemmas. -/

theorem lookupA_eq_none_iff {β : Type} (l : List (Int × β)) (k : Int) :
    lookupA l k = none ↔ k ∉ l.map Prod.fst := by
  induction l with
  | nil => simp [lookupA]
  | cons p t ih =>
    obtain ⟨k1, v1⟩ := p
    by_cases h : k1 = k
    · subst h
      simp [lookupA]
    · simp [lookupA, h, ih, Ne.symm h]

theorem mem_of_lookupA {β : Type} {l : List (Int × β)} {k : Int} {v : β}
    (h : lookupA l k = some v) : (k, v) ∈ l := by
  induction l with
  | nil => simp [lookupA] at h
  | cons p t ih =>
    obtain ⟨k1, v1⟩ := p
    by_cases hk : k1 = k
    · subst hk
      simp [lookupA] at h
      simp [h]
    · simp [lookupA, hk] at h
      exact List.mem_cons_of_mem _ (ih h)

theorem lookupA_of_mem_nodup {β : Type} {l : List (Int × β)} {k : Int} {v : β}
    (hnd : (l.map Prod.fst).Nodup) (h : (k, v) ∈ l) : lookupA l k = some v := by
  induction l with
  | nil => simp at h
  | cons p t ih =>
    obtain ⟨k1, v1⟩ := p
    rw [List.map_cons, List.nodup_cons] at hnd
    rcases List.mem_cons.1 h with h1 | h1
    · cases h1
      simp [lookupA]
    · have hk : k1 ≠ k := by
        intro he
        subst he
        exact hnd.1 (List.mem_map.2 ⟨(k1, v), h1, rfl⟩)
      simp only [lookupA, if_neg hk]
      exact ih hnd.2 h1

theorem lookupA_insertA_self {β : Type} (l : List (Int × β)) (k : Int) (v : β) :
    lookupA (insertA l k v) k = some v := by
  induction l with
  | nil => simp [insertA, lookupA]
  | cons p t ih =>
    obtain ⟨k1, v1⟩ := p
    by_cases h : k1 = k
    · simp [insertA, h, lookupA]
    · simp [insertA, h, lookupA, ih]

theorem lookupA_insertA_ne {β : Type} (l : List (Int × β)) (k k1 : Int) (v : β)
    (h : k1 ≠ k) : lookupA (insertA l k v) k1 = lookupA l k1 := by
  induction l with
  | nil => simp [insertA, lookupA, Ne.symm h]
  | cons p t ih =>
    obtain ⟨k2, v2⟩ := p
    by_cases h2 : k2 = k
    · subst h2
      simp [insertA, lookupA, Ne.symm h]
    · simp [insertA, h2, lookupA, ih]

theorem lookupA_eraseA_ne {β : Type} (l : List (Int × β)) (k k1 : Int)
    (h : k1 ≠ k) : lookupA (eraseA l k) k1 = lookupA l k1 := by
  induction l with
  | nil => simp [eraseA]
  | cons p t ih =>
    obtain ⟨k2, v2⟩ := p
    by_cases h2 : k2 = k
    · subst h2
      simp [eraseA, lookupA, Ne.symm h]
    · simp [eraseA, h2, lookupA, ih]

theorem lookupA_eraseA_self {β : Type} (l : List (Int × β)) (k : Int)
    (hnd : (l.map Prod.fst).Nodup) : lookupA (eraseA l k) k = none := by
  induction l with
  | nil => simp [eraseA, lookupA]
  | cons p t ih =>
    obtain ⟨k1, v1⟩ := p
    rw [List.map_cons, List.nodup_cons] at hnd
    by_cases h : k1 = k
    · subst h
      rw [show eraseA ((k1, v1) :: t) k1 = t from by simp [eraseA], lookupA_eq_none_iff]
      exact hnd.1
    · rw [show eraseA ((k1, v1) :: t) k = (k1, v1) :: eraseA t k from by simp [eraseA, h]]
      simp only [lookupA, if_neg h]
      exact ih hnd.2

theorem lookupA_eraseA_none {β : Type} (l : List (Int × β)) (k k1 : Int)
    (h : lookupA l k1 = none) : lookupA (eraseA l k) k1 = none := by
  induction l with
  | nil => simp [eraseA, lookupA]
  | cons p t ih =>
    obtain ⟨k2, v2⟩ := p
    by_cases h2 : k2 = k1
    · subst h2
      simp [lookupA] at h
    · simp [lookupA, h2] at h
      by_cases h3 : k2 = k
      · simp [eraseA, h3, h]
      · simp [eraseA, h3, lookupA, h2, ih h]

theorem keys_eraseA_sublist {β : Type} (l : List (Int × β)) (k : Int) :
    ((eraseA l k).map Prod.fst).Sublist (l.map Prod.fst) := by
  induction l with
  | nil => simp [eraseA]
  | cons p t ih =>
    obtain ⟨k1, v1⟩ := p
    by_cases h : k1 = k
    · rw [show eraseA ((k1, v1) :: t) k = t from by simp [eraseA, h]]
      exact List.sublist_cons_self k1 (t.map Prod.fst)
    · simpa [eraseA, h] using List.Sublist.cons₂ k1 ih

theorem nodup_eraseA {β : Type} (l : List (Int × β)) (k : Int)
    (hnd : (l.map Prod.fst).Nodup) : ((eraseA l k).map Prod.fst).Nodup :=
  hnd.sublist (keys_eraseA_sublist l k)

theorem mem_keys_insertA {β : Type} (l : List (Int × β)) (k a : Int) (v : β) :
    a ∈ (insertA l k v).map Prod.fst ↔ a ∈ l.map Prod.fst ∨ a = k := by
  induction l with
  | nil => simp [insertA]
  | cons p t ih =>
    obtain ⟨k1, v1⟩ := p
    by_cases h : k1 = k
    · subst h
      simp [insertA]
      tauto
    · simp [insertA, h, ih]
      tauto

theorem nodup_insertA {β : Type} (l : List (Int × β)) (k : Int) (v : β)
    (hnd : (l.map Prod.fst).Nodup) : ((insertA l k v).map Prod.fst).Nodup := by
  induction l with
  | nil => simp [insertA]
  | cons p t ih =>
    obtain ⟨k1, v1⟩ := p
    rw [List.map_cons, List.nodup_cons] at hnd
    by_cases h : k1 = k
    · subst h
      rw [show insertA ((k1, v1) :: t) k1 v = (k1, v) :: t from by simp [insertA]]
      rw [List.map_cons, List.nodup_cons]
      exact hnd
    · rw [show insertA ((k1, v1) :: t) k v = (k1, v1) :: insertA t k v from by
        simp [insertA, h]]
      rw [List.map_cons, List.nodup_cons]
      refine ⟨fun hm => ?_, ih hnd.2⟩
      rcases (mem_keys_insertA t k k1 v).1 hm with hm1 | hm1
      · exact hnd.1 hm1
      · exact h hm1

theorem lookupA_map_val {β γ : Type} (f : Int → β → γ) (l : List (Int × β)) (k : Int) :
    lookupA (l.map fun p => (p.1, f p.1 p.2)) k = Option.map (f k) (lookupA l k) := by
  induction l with
  | nil => simp [lookupA]
  | cons p t ih =>
    obtain ⟨k1, v1⟩ := p
    by_cases h : k1 = k
    · subst h
      simp [lookupA]
    · simp [lookupA, h, ih]

theorem mem_vals_nodup {β : Type} {l : List (Int × β)} {k : Int} {v1 v2 : β}
    (hnd : (l.map Prod.fst).Nodup) (h1 : (k, v1) ∈ l) (h2 : (k, v2) ∈ l) : v1 = v2 := by
  have e1 := lookupA_of_mem_nodup hnd h1
  have e2 := lookupA_of_mem_nodup hnd h2
  rw [e1] at e2
  exact Option.some.inj e2

/-! Frame and branch lemmas about the embedded operations. -/

theorem get_state_frame (s : GameSession) (wm tm now : Int) :
    (get_state s wm tm now).1.user_id = s.user_id ∧
    (get_state s wm tm now).1.channel_id = s.channel_id ∧
    (get_state s wm tm now).1.last_interaction = s.last_interaction ∧
    (get_state s wm tm now).1.message_id = s.message_id ∧
    (get_state s wm tm now).1.warning_sent = s.warning_sent := by
  unfold get_state
  by_cases h1 : s.state = SessionState.ended
  · simp [h1]
  · by_cases h2 : now - s.last_interaction > minutesDelta tm
    · simp [h1, h2]
    · by_cases h3 : now - s.last_interaction > minutesDelta wm
      · simp [h1, h2, h3]
      · simp [h1, h2, h3]

theorem check_one_frame (wm tm now : Int) (notify : Int → Int → NotifyOutcome)
    (u : Int) (s : GameSession) :
    (check_one wm tm now notify u s).1.user_id = s.user_id ∧
    (check_one wm tm now notify u s).1.channel_id = s.channel_id ∧
    (check_one wm tm now notify u s).1.last_interaction = s.last_interaction ∧
    (check_one wm tm now notify u s).1.message_id = s.message_id := by
  obtain ⟨f1, f2, f3, f4, f5⟩ := get_state_frame s wm tm now
  unfold check_one
  by_cases hw : (get_state s wm tm now).2 = SessionState.warning ∧
      (get_state s wm tm now).1.warning_sent = false
  · cases hn : notify s.channel_id u <;>
      simp [hw, hn, f1, f2, f3, f4]
  · by_cases he : (get_state s wm tm now).2 = SessionState.expired
    · cases hn : notify s.channel_id u <;>
        simp [hw, he, hn, f1, f2, f3, f4]
    · simp [hw, he, f1, f2, f3, f4]

theorem check_one_expired_rec (wm tm now : Int) (notify : Int → Int → NotifyOutcome)
    (u : Int) (s : GameSession) :
    (check_one wm tm now notify u s).2.1 =
      if (get_state s wm tm now).2 = SessionState.expired then some u else none := by
  unfold check_one
  by_cases hw : (get_state s wm tm now).2 = SessionState.warning ∧
      (get_state s wm tm now).1.warning_sent = false
  · have hne : (get_state s wm tm now).2 ≠ SessionState.expired := by
      rw [hw.1]
      intro hc
      cases hc
    cases hn : notify (get_state s wm tm now).1.channel_id u <;> simp [hw, hn, hne]
  · by_cases he : (get_state s wm tm now).2 = SessionState.expired
    · cases hn : notify (get_state s wm tm now).1.channel_id u <;> simp [hw, hn, he]
    · simp [hw, he]

theorem check_one_event_user (wm tm now : Int) (notify : Int → Int → NotifyOutcome)
    (u : Int) (s : GameSession) :
    ∀ e ∈ (check_one wm tm now notify u s).2.2, e.user = u := by
  unfold check_one
  by_cases hw : (get_state s wm tm now).2 = SessionState.warning ∧
      (get_state s wm tm now).1.warning_sent = false
  · cases hn : notify (get_state s wm tm now).1.channel_id u <;> simp [hw, hn]
  · by_cases he : (get_state s wm tm now).2 = SessionState.expired
    · cases hn : notify (get_state s wm tm now).1.channel_id u <;> simp [hw, he, hn]
    · simp [hw, he]

theorem check_one_expired_events (wm tm now : Int) (notify : Int → Int → NotifyOutcome)
    (u : Int) (s : GameSession)
    (he : (get_state s wm tm now).2 = SessionState.expired) :
    ∀ e ∈ (check_one wm tm now notify u s).2.2, e.kind = SendKind.expire := by
  have hw : ¬ ((get_state s wm tm now).2 = SessionState.warning ∧
      (get_state s wm tm now).1.warning_sent = false) := by
    rw [he]
    intro hc
    cases hc.1
  unfold check_one
  cases hn : notify (get_state s wm tm now).1.channel_id u <;> simp [hw, he, hn]

theorem end_session_eq_none (m : GameSessionManager) (u : Int)
    (hl : lookupA m.sessions u = none) : end_session m u = m := by
  unfold end_session
  rw [hl]

theorem end_session_eq_nomsg (m : GameSessionManager) (u : Int) (s : GameSession)
    (hl : lookupA m.sessions u = some s) (hm : s.message_id = none) :
    end_session m u = { m with sessions := eraseA m.sessions u } := by
  unfold end_session
  rw [hl]
  simp [hm]

theorem end_session_eq_msg (m : GameSessionManager) (u : Int) (s : GameSession) (mid : Int)
    (hl : lookupA m.sessions u = some s) (hm : s.message_id = some mid) :
    end_session m u =
      { m with sessions := eraseA m.sessions u
               message_to_session := eraseA m.message_to_session mid } := by
  unfold end_session
  rw [hl]
  simp [hm]

theorem end_session_sessions (m : GameSessionManager) (u : Int) (hwf : Wf m) (v : Int) :
    lookupA (end_session m u).sessions v =
      if v = u then none else lookupA m.sessions v := by
  unfold end_session
  cases hl : lookupA m.sessions u with
  | none =>
    by_cases h : v = u
    · subst h
      simp [hl]
    · simp [h]
  | some s =>
    by_cases h : v = u
    · subst h
      simp [lookupA_eraseA_self m.sessions v hwf.1]
    · simp [h, lookupA_eraseA_ne m.sessions u v h]

theorem end_session_wf (m : GameSessionManager) (u : Int) (hwf : Wf m) :
    Wf (end_session m u) := by
  cases hl : lookupA m.sessions u with
  | none =>
    rw [end_session_eq_none m u hl]
    exact hwf
  | some s =>
    cases hm : s.message_id with
    | none =>
      rw [end_session_eq_nomsg m u s hl hm]
      exact ⟨nodup_eraseA m.sessions u hwf.1, hwf.2⟩
    | some mid =>
      rw [end_session_eq_msg m u s mid hl hm]
      exact ⟨nodup_eraseA m.sessions u hwf.1, nodup_eraseA m.message_to_session mid hwf.2⟩

theorem end_session_index_none (m : GameSessionManager) (u mid : Int)
    (h : lookupA m.message_to_session mid = none) :
    lookupA (end_session m u).message_to_session mid = none := by
  cases hl : lookupA m.sessions u with
  | none =>
    rw [end_session_eq_none m u hl]
    exact h
  | some s =>
    cases hm : s.message_id with
    | none =>
      rw [end_session_eq_nomsg m u s hl hm]
      exact h
    | some mid1 =>
      rw [end_session_eq_msg m u s mid1 hl hm]
      exact lookupA_eraseA_none m.message_to_session mid1 mid h

theorem end_session_index_pop (m : GameSessionManager) (u mid : Int) (s : GameSession)
    (hwf : Wf m) (hl : lookupA m.sessions u = some s) (hm : s.message_id = some mid) :
    lookupA (end_session m u).message_to_session mid = none := by
  rw [end_session_eq_msg m u s mid hl hm]
  exact lookupA_eraseA_self m.message_to_session mid hwf.2

theorem foldl_end_session_wf (L : List Int) (m : GameSessionManager) (hwf : Wf m) :
    Wf (L.foldl end_session m) := by
  induction L generalizing m with
  | nil => exact hwf
  | cons a t ih => exact ih (end_session m a) (end_session_wf m a hwf)

theorem foldl_end_session_sessions (L : List Int) (m : GameSessionManager)
    (hwf : Wf m) (v : Int) :
    lookupA (L.foldl end_session m).sessions v =
      if v ∈ L then none else lookupA m.sessions v := by
  induction L generalizing m with
  | nil => simp
  | cons a t ih =>
    rw [List.foldl_cons, ih (end_session m a) (end_session_wf m a hwf)]
    rw [end_session_sessions m a hwf v]
    by_cases h1 : v ∈ t
    · simp [h1]
    · by_cases h2 : v = a
      · simp [h1, h2]
      · simp [h1, h2]

theorem foldl_end_session_index_none (L : List Int) (m : GameSessionManager) (mid : Int)
    (h : lookupA m.message_to_session mid = none) :
    lookupA (L.foldl end_session m).message_to_session mid = none := by
  induction L generalizing m with
  | nil => exact h
  | cons a t ih => exact ih (end_session m a) (end_session_index_none m a mid h)

theorem foldl_end_session_index_pop (L : List Int) (m : GameSessionManager)
    (u mid : Int) (s : GameSession) (hwf : Wf m) (hu : u ∈ L)
    (hl : lookupA m.sessions u = some s) (hm : s.message_id = some mid) :
    lookupA (L.foldl end_session m).message_to_session mid = none := by
  induction L generalizing m with
  | nil => simp at hu
  | cons a t ih =>
    rw [List.foldl_cons]
    by_cases h1 : u = a
    · subst h1
      exact foldl_end_session_index_none t (end_session m u) mid
        (end_session_index_pop m u mid s hwf hl hm)
    · have hu1 : u ∈ t := by
        rcases List.mem_cons.1 hu with hc | hc
        · exact absurd hc h1
        · exact hc
      have hl1 : lookupA (end_session m a).sessions u = some s := by
        rw [end_session_sessions m a hwf u, if_neg h1]
        exact hl
      exact ih (end_session m a) (end_session_wf m a hwf) hu1 hl1

/-! Claim theorems. -/

/-- C1: the claim — the message-to-user secondary index never references a
user whose session is Ended or absent, and a new binding replaces the old
one, so after `register_message(U, M1)`, `register_message(U, M2)` and
ending or recreating the session of U no entry for M1 still resolves to U —
fails on the code.  Evaluating the embedded operations on that very
scenario: after the two bindings both index entries 201 and 202 map to
the single session of user 1; after `end_session` the stale entry 201 ↦ 1
survives although user 1 is absent from the registry; and after the
session is recreated, an interaction on the long-replaced message 201 is
still authorized. -/
theorem registerMessage_stale_binding_eval :
    lookupA mgrC1c.message_to_session 201 = some 1 ∧
    lookupA mgrC1c.message_to_session 202 = some 1 ∧
    lookupA mgrC1d.sessions 1 = none ∧
    lookupA mgrC1d.message_to_session 201 = some 1 ∧
    (handle_interaction mgrC1e 1 201 10).2.1 = true := by decide

/-- C2: the claim — an interaction by the owner on the bound message of a
session whose inactivity exceeds the timeout is rejected as Expired and the
session is ended — fails on the code.  At 2100 ticks (35 minutes, timeout
30) the stored session computes as Expired, yet `handle_interaction`
returns `shouldProceed = true` and leaves the session in the registry,
Active with a refreshed clock: `get_session` resets `last_interaction`
before the expiry check, so the Expired branch cannot fire. -/
theorem handleInteraction_expired_approved_eval :
    ((lookupA mgrC2.sessions 1).map
        fun s => (get_state s mgrC2.warning_minutes mgrC2.timeout_minutes 2100).2) =
      some SessionState.expired ∧
    (handle_interaction mgrC2 1 201 2100).2.1 = true ∧
    ((lookupA (handle_interaction mgrC2 1 201 2100).1.sessions 1).map GameSession.state) =
      some SessionState.active ∧
    ((lookupA (handle_interaction mgrC2 1 201 2100).1.sessions 1).map
        GameSession.last_interaction) = some 2100 := by decide

/-- C3: if the registry holds a non-Ended session for the user,
`create_session` fails with the user-facing message and changes nothing;
if it holds no such session, it installs a fresh Active session for the
user, leaves the message index untouched, and reports success. -/
theorem createSession_spec (m : GameSessionManager) (u c now : Int) :
    (∀ s, lookupA m.sessions u = some s → s.state ≠ SessionState.ended →
      create_session m u c now =
        (m, false, "You already have an active game! Use `/end` to end your current game first.")) ∧
    ((∀ s, lookupA m.sessions u = some s → s.state = SessionState.ended) →
      create_session m u c now =
        ({ m with sessions := insertA m.sessions u (GameSession.new u c now) },
         true, "New game session created successfully!") ∧
      (GameSession.new u c now).state = SessionState.active) := by
  constructor
  · intro s hl hs
    unfold create_session
    rw [hl]
    simp [hs]
  · intro hall
    unfold create_session
    cases hl : lookupA m.sessions u with
    | none => exact ⟨rfl, rfl⟩
    | some s => simp [hall s hl, GameSession.new]

theorem createSession_spec_witness :
    create_session mgrA 1 100 5 =
      (mgrA, false,
       "You already have an active game! Use `/end` to end your current game first.") ∧
    (create_session mgr0 1 100 5 =
      ({ mgr0 with sessions := insertA mgr0.sessions 1 (GameSession.new 1 100 5) },
       true, "New game session created successfully!") ∧
     (GameSession.new 1 100 5).state = SessionState.active) :=
  ⟨(createSession_spec mgrA 1 100 5).1 sessA (by decide) (by decide),
   (createSession_spec mgr0 1 100 5).2 (fun s h => by simp [mgr0, GameSessionManager.new, lookupA] at h)⟩

/-- C4: `handle_interaction` on a message id with no index entry, or by a
user different from the indexed owner, rejects and returns the manager
completely unchanged — no session is touched, so no timer is refreshed. -/
theorem handleInteraction_reject_frame (m : GameSessionManager) (u mid now : Int) :
    (lookupA m.message_to_session mid = none →
      handle_interaction m u mid now = (m, false, "This game session is no longer active.")) ∧
    (∀ owner, lookupA m.message_to_session mid = some owner → u ≠ owner →
      handle_interaction m u mid now = (m, false, "This is not your game session!")) := by
  constructor
  · intro h
    unfold handle_interaction
    rw [h]
  · intro owner h hne
    unfold handle_interaction
    rw [h]
    simp [hne]

theorem handleInteraction_reject_frame_witness :
    handle_interaction mgrA 1 999 0 = (mgrA, false, "This game session is no longer active.") ∧
    handle_interaction mgrA 2 201 0 = (mgrA, false, "This is not your game session!") :=
  ⟨(handleInteraction_reject_frame mgrA 1 999 0).1 (by decide),
   (handleInteraction_reject_frame mgrA 2 201 0).2 1 (by decide) (by decide)⟩

/-- C7: `get_session` returns nothing exactly when the user has no session
or the stored session is Ended; otherwise it applies `update_interaction`
to the found session — writing the refreshed session (clock reset to now,
state Active, warning flag cleared) back into the registry — and returns
it. -/
theorem getSession_spec (m : GameSessionManager) (u now : Int) :
    ((get_session m u now).2 = none ↔
      lookupA m.sessions u = none ∨
        ∃ s, lookupA m.sessions u = some s ∧ s.state = SessionState.ended) ∧
    (∀ s, lookupA m.sessions u = some s → s.state ≠ SessionState.ended →
      (get_session m u now).2 = some (update_interaction s now) ∧
      (get_session m u now).1.sessions = insertA m.sessions u (update_interaction s now) ∧
      (update_interaction s now).last_interaction = now ∧
      (update_interaction s now).state = SessionState.active ∧
      (update_interaction s now).warning_sent = false) := by
  constructor
  · unfold get_session
    cases hl : lookupA m.sessions u with
    | none => simp
    | some s =>
      by_cases hs : s.state = SessionState.ended
      · simp [hs]
      · simp [hs]
  · intro s hl hs
    unfold get_session
    rw [hl]
    simp [hs, update_interaction]

theorem getSession_spec_witness :
    (get_session mgrA 1 7).2 = some (update_interaction sessA 7) ∧
    (get_session mgrA 1 7).1.sessions = insertA mgrA.sessions 1 (update_interaction sessA 7) ∧
    (update_interaction sessA 7).last_interaction = 7 ∧
    (update_interaction sessA 7).state = SessionState.active ∧
    (update_interaction sessA 7).warning_sent = false :=
  (getSession_spec mgrA 1 7).2 sessA (by decide) (by decide)

/-- C8 counterexample: for a session whose cached state is Warning but whose
elapsed inactivity exceeds neither threshold, `get_state` returns Warning,
not Active as the claim states. -/
theorem getState_cached_counterexample :
    (0 : Int) - sessW.last_interaction ≤ minutesDelta 20 ∧
    (0 : Int) - sessW.last_interaction ≤ minutesDelta 30 ∧
    (get_state sessW 20 30 0).2 ≠ SessionState.active := by decide

/-- C8 amended: `get_state` returns Ended unconditionally when the stored
state is Ended; otherwise it sets and returns Expired when elapsed time
exceeds the timeout threshold, sets and returns Warning when elapsed
exceeds only the warning threshold, and otherwise returns the stored
(cached) state unchanged — which is Active exactly when the cache is
Active. -/
theorem getState_spec (s : GameSession) (wm tm now : Int) :
    (s.state = SessionState.ended → get_state s wm tm now = (s, SessionState.ended)) ∧
    (s.state ≠ SessionState.ended →
      (now - s.last_interaction > minutesDelta tm →
        get_state s wm tm now = ({ s with state := SessionState.expired }, SessionState.expired)) ∧
      (now - s.last_interaction ≤ minutesDelta tm →
        now - s.last_interaction > minutesDelta wm →
        get_state s wm tm now = ({ s with state := SessionState.warning }, SessionState.warning)) ∧
      (now - s.last_interaction ≤ minutesDelta tm →
        now - s.last_interaction ≤ minutesDelta wm →
        get_state s wm tm now = (s, s.state))) := by
  refine ⟨fun hs => ?_, fun hs => ⟨fun h1 => ?_, fun h1 h2 => ?_, fun h1 h2 => ?_⟩⟩
  · simp [get_state, hs]
  · simp [get_state, hs, h1]
  · simp [get_state, hs, not_lt.2 h1, h2]
  · simp [get_state, hs, not_lt.2 h1, not_lt.2 h2]

theorem getState_spec_witness :
    get_state sessA 20 30 5000 =
      ({ sessA with state := SessionState.expired }, SessionState.expired) ∧
    get_state sessA 20 30 1300 =
      ({ sessA with state := SessionState.warning }, SessionState.warning) ∧
    get_state sessA 20 30 100 = (sessA, sessA.state) ∧
    get_state sessE 20 30 5000 = (sessE, SessionState.ended) :=
  ⟨((getState_spec sessA 20 30 5000).2 (by decide)).1 (by decide),
   ((getState_spec sessA 20 30 1300).2 (by decide)).2.1 (by decide) (by decide),
   ((getState_spec sessA 20 30 100).2 (by decide)).2.2 (by decide) (by decide),
   (getState_spec sessE 20 30 5000).1 (by decide)⟩

/-- C9 counterexample: `update_interaction` on an Ended session does not
leave it Ended — the code resets the state to Active with no guard. -/
theorem updateInteraction_ended_counterexample :
    sessE.state = SessionState.ended ∧
    (update_interaction sessE 5).state ≠ SessionState.ended := by decide

/-- C9 amended: `update_interaction` always sets `last_interaction` to now,
state to Active and `warning_sent` to false, regardless of the prior state —
including Expired and also Ended (the code has no guard preserving Ended) —
and changes nothing else. -/
theorem updateInteraction_spec (s : GameSession) (now : Int) :
    (update_interaction s now).last_interaction = now ∧
    (update_interaction s now).state = SessionState.active ∧
    (update_interaction s now).warning_sent = false ∧
    (update_interaction s now).user_id = s.user_id ∧
    (update_interaction s now).channel_id = s.channel_id ∧
    (update_interaction s now).message_id = s.message_id := by
  simp [update_interaction]

/-! Sweep decomposition lemmas. -/

theorem keys_map_snd {β γ : Type} (l : List (Int × β)) (f : Int → β → γ) :
    (l.map fun p => (p.1, f p.1 p.2)).map Prod.fst = l.map Prod.fst := by
  induction l with
  | nil => rfl
  | cons p t ih => simp [ih]

theorem check_sessions_expired_eq (m : GameSessionManager)
    (notify : Int → Int → NotifyOutcome) (now : Int) :
    (check_sessions m notify now).2.1 = m.sessions.filterMap
      (fun p => (check_one m.warning_minutes m.timeout_minutes now notify p.1 p.2).2.1) := rfl

theorem check_sessions_mgr_eq (m : GameSessionManager)
    (notify : Int → Int → NotifyOutcome) (now : Int) :
    (check_sessions m notify now).1 =
      ((check_sessions m notify now).2.1).foldl end_session
        { m with sessions := (m.sessions.map
            (fun p => (p.1, (check_one m.warning_minutes m.timeout_minutes now notify p.1 p.2).1))) } := rfl

theorem check_sessions_events_eq (m : GameSessionManager)
    (notify : Int → Int → NotifyOutcome) (now : Int) :
    (check_sessions m notify now).2.2 = (m.sessions.map
      (fun p => (check_one m.warning_minutes m.timeout_minutes now notify p.1 p.2).2.2)).flatten := rfl

theorem filterMap_check_one (wm tm now : Int) (ntf : Int → Int → NotifyOutcome)
    (l : List (Int × GameSession)) :
    l.filterMap (fun p => (check_one wm tm now ntf p.1 p.2).2.1) =
      (l.filter fun p =>
        decide ((get_state p.2 wm tm now).2 = SessionState.expired)).map Prod.fst := by
  induction l with
  | nil => rfl
  | cons p t ih =>
    rw [List.filterMap_cons, List.filter_cons, check_one_expired_rec]
    by_cases h : (get_state p.2 wm tm now).2 = SessionState.expired
    · simp [h, ih]
    · simp [h, ih]

theorem get_state_timeout (s : GameSession) (wm tm now : Int)
    (hne : s.state ≠ SessionState.ended)
    (hto : now - s.last_interaction > minutesDelta tm) :
    (get_state s wm tm now).2 = SessionState.expired := by
  simp [get_state, hne, hto]

theorem check_one_warn_char (wm tm now : Int) (ntf : Int → Int → NotifyOutcome)
    (u : Int) (s : GameSession) :
    ∀ e ∈ (check_one wm tm now ntf u s).2.2, e.kind = SendKind.warn →
      (get_state s wm tm now).2 = SessionState.warning ∧ s.warning_sent = false ∧
      (check_one wm tm now ntf u s).1.warning_sent = e.delivered := by
  have f5 := (get_state_frame s wm tm now).2.2.2.2
  intro e he hk
  by_cases hw : (get_state s wm tm now).2 = SessionState.warning ∧
      (get_state s wm tm now).1.warning_sent = false
  · cases hn : ntf (get_state s wm tm now).1.channel_id u with
    | noChannel =>
      rw [show (check_one wm tm now ntf u s).2.2 = [] from by
        unfold check_one; simp [hw, hn]] at he
      simp at he
    | delivered =>
      rw [show (check_one wm tm now ntf u s).2.2 =
          [{ kind := SendKind.warn, channel := (get_state s wm tm now).1.channel_id,
             user := u, delivered := true }] from by
        unfold check_one; simp [hw, hn]] at he
      rw [List.mem_singleton] at he
      subst he
      refine ⟨hw.1, f5 ▸ hw.2, ?_⟩
      rw [show (check_one wm tm now ntf u s).1 =
          { (get_state s wm tm now).1 with warning_sent := true } from by
        unfold check_one; simp [hw, hn]]
    | failed =>
      rw [show (check_one wm tm now ntf u s).2.2 =
          [{ kind := SendKind.warn, channel := (get_state s wm tm now).1.channel_id,
             user := u, delivered := false }] from by
        unfold check_one; simp [hw, hn]] at he
      rw [List.mem_singleton] at he
      subst he
      refine ⟨hw.1, f5 ▸ hw.2, ?_⟩
      rw [show (check_one wm tm now ntf u s).1 = (get_state s wm tm now).1 from by
        unfold check_one; simp [hw, hn]]
      exact hw.2
  · by_cases hexp : (get_state s wm tm now).2 = SessionState.expired
    · have hkind := check_one_expired_events wm tm now ntf u s hexp e he
      rw [hkind] at hk
      exact SendKind.noConfusion hk
    · rw [show (check_one wm tm now ntf u s).2.2 = [] from by
        unfold check_one; simp [hw, hexp]] at he
      simp at he

/-- C5: during a sweep, a warning send happens only for a session whose
computed state is Warning with `warning_sent` still false; a delivered
warning marks the session (`warning_sent = true`); a failed delivery is
caught and does not mark the session; a session already marked sends no
second warning; and the sends of the sweep are exactly the concatenation
of the sends for every session, so a delivery failure for one session never aborts
the processing of the rest. -/
theorem checkSessions_warning_spec (m : GameSessionManager)
    (notify : Int → Int → NotifyOutcome) (now : Int) (u : Int) (s : GameSession) :
    (∀ e ∈ (check_one m.warning_minutes m.timeout_minutes now notify u s).2.2,
      e.kind = SendKind.warn →
        (get_state s m.warning_minutes m.timeout_minutes now).2 = SessionState.warning ∧
        s.warning_sent = false) ∧
    (∀ e ∈ (check_one m.warning_minutes m.timeout_minutes now notify u s).2.2,
      e.kind = SendKind.warn → e.delivered = true →
        (check_one m.warning_minutes m.timeout_minutes now notify u s).1.warning_sent = true) ∧
    (∀ e ∈ (check_one m.warning_minutes m.timeout_minutes now notify u s).2.2,
      e.kind = SendKind.warn → e.delivered = false →
        (check_one m.warning_minutes m.timeout_minutes now notify u s).1.warning_sent = false) ∧
    (s.warning_sent = true →
      ∀ e ∈ (check_one m.warning_minutes m.timeout_minutes now notify u s).2.2,
        e.kind ≠ SendKind.warn) ∧
    (check_sessions m notify now).2.2 = (m.sessions.map
      (fun p => (check_one m.warning_minutes m.timeout_minutes now notify p.1 p.2).2.2)).flatten := by
  have hc := check_one_warn_char m.warning_minutes m.timeout_minutes now notify u s
  refine ⟨?_, ?_, ?_, ?_, rfl⟩
  · intro e he hk
    exact ⟨(hc e he hk).1, (hc e he hk).2.1⟩
  · intro e he hk hd
    rw [(hc e he hk).2.2, hd]
  · intro e he hk hd
    rw [(hc e he hk).2.2, hd]
  · intro hs e he hk
    have hfalse := (hc e he hk).2.1
    rw [hs] at hfalse
    exact Bool.noConfusion hfalse

theorem checkSessions_warning_spec_witness :
    ((get_state sessA mgrA.warning_minutes mgrA.timeout_minutes 1300).2 = SessionState.warning ∧
      sessA.warning_sent = false) ∧
    (check_one mgrA.warning_minutes mgrA.timeout_minutes 1300 notifyAll 1 sessA).1.warning_sent
      = true :=
  ⟨(checkSessions_warning_spec mgrA notifyAll 1300 1 sessA).1
      { kind := SendKind.warn, channel := 100, user := 1, delivered := true }
      (by decide) (by decide),
   (checkSessions_warning_spec mgrA notifyAll 1300 1 sessA).2.1
      { kind := SendKind.warn, channel := 100, user := 1, delivered := true }
      (by decide) (by decide) (by decide)⟩

/-- C6: `check_sessions` returns exactly the user ids whose session state
computed as Expired during the iteration, in registry order; the expired
users are ended only after the full iteration, so after it returns every
returned user is absent from the primary registry and its bound message is
absent from the message index, while every session that did not compute as
Expired is still present. -/
theorem checkSessions_expiry_spec (m : GameSessionManager)
    (notify : Int → Int → NotifyOutcome) (now : Int) (hwf : Wf m) :
    (check_sessions m notify now).2.1 =
      (m.sessions.filter fun p =>
        decide ((get_state p.2 m.warning_minutes m.timeout_minutes now).2 =
          SessionState.expired)).map Prod.fst ∧
    (∀ u ∈ (check_sessions m notify now).2.1,
      lookupA (check_sessions m notify now).1.sessions u = none) ∧
    (∀ u s, (u, s) ∈ m.sessions → u ∈ (check_sessions m notify now).2.1 →
      ∀ mid, s.message_id = some mid →
        lookupA (check_sessions m notify now).1.message_to_session mid = none) ∧
    (∀ u s, (u, s) ∈ m.sessions →
      (get_state s m.warning_minutes m.timeout_minutes now).2 ≠ SessionState.expired →
        (lookupA (check_sessions m notify now).1.sessions u).isSome = true) := by
  have hwf1 : Wf { m with sessions := (m.sessions.map
      (fun p => (p.1, (check_one m.warning_minutes m.timeout_minutes now notify p.1 p.2).1))) } := by
    constructor
    · rw [show ({ m with sessions := (m.sessions.map
          (fun p => (p.1, (check_one m.warning_minutes m.timeout_minutes now notify p.1 p.2).1))) } :
            GameSessionManager).sessions = (m.sessions.map
          (fun p => (p.1, (check_one m.warning_minutes m.timeout_minutes now notify p.1 p.2).1))) from rfl]
      rw [keys_map_snd m.sessions
        (fun k v => (check_one m.warning_minutes m.timeout_minutes now notify k v).1)]
      exact hwf.1
    · exact hwf.2
  refine ⟨?_, ?_, ?_, ?_⟩
  · rw [check_sessions_expired_eq]
    exact filterMap_check_one m.warning_minutes m.timeout_minutes now notify m.sessions
  · intro u hu
    rw [check_sessions_mgr_eq]
    rw [foldl_end_session_sessions ((check_sessions m notify now).2.1) _ hwf1 u]
    simp [hu]
  · intro u s hmem hu mid hmid
    have hl : lookupA m.sessions u = some s := lookupA_of_mem_nodup hwf.1 hmem
    have hl1 : lookupA ({ m with sessions := (m.sessions.map
        (fun p => (p.1, (check_one m.warning_minutes m.timeout_minutes now notify p.1 p.2).1))) } :
          GameSessionManager).sessions u =
        some (check_one m.warning_minutes m.timeout_minutes now notify u s).1 := by
      rw [show ({ m with sessions := (m.sessions.map
          (fun p => (p.1, (check_one m.warning_minutes m.timeout_minutes now notify p.1 p.2).1))) } :
            GameSessionManager).sessions = (m.sessions.map
          (fun p => (p.1, (check_one m.warning_minutes m.timeout_minutes now notify p.1 p.2).1))) from rfl]
      rw [lookupA_map_val
        (fun k v => (check_one m.warning_minutes m.timeout_minutes now notify k v).1) m.sessions u]
      rw [hl]
      rfl
    have hmid1 : (check_one m.warning_minutes m.timeout_minutes now notify u s).1.message_id =
        some mid := by
      rw [(check_one_frame m.warning_minutes m.timeout_minutes now notify u s).2.2.2]
      exact hmid
    rw [check_sessions_mgr_eq]
    exact foldl_end_session_index_pop ((check_sessions m notify now).2.1) _ u mid
      (check_one m.warning_minutes m.timeout_minutes now notify u s).1 hwf1 hu hl1 hmid1
  · intro u s hmem hne
    have hl : lookupA m.sessions u = some s := lookupA_of_mem_nodup hwf.1 hmem
    have hnotin : u ∉ (check_sessions m notify now).2.1 := by
      intro hu
      rw [check_sessions_expired_eq,
        filterMap_check_one m.warning_minutes m.timeout_minutes now notify m.sessions] at hu
      rcases List.mem_map.1 hu with ⟨p, hp, hp1⟩
      obtain ⟨pu, ps⟩ := p
      rcases List.mem_filter.1 hp with ⟨hpmem, hpdec⟩
      rcases of_decide_eq_true hpdec with hpexp
      have hsu : ps = s := by
        apply mem_vals_nodup hwf.1 ?_ hmem
        rw [show pu = u from hp1] at hpmem
        exact hpmem
      rw [hsu] at hpexp
      exact hne hpexp
    have hl1 : lookupA ({ m with sessions := (m.sessions.map
        (fun p => (p.1, (check_one m.warning_minutes m.timeout_minutes now notify p.1 p.2).1))) } :
          GameSessionManager).sessions u =
        some (check_one m.warning_minutes m.timeout_minutes now notify u s).1 := by
      rw [show ({ m with sessions := (m.sessions.map
          (fun p => (p.1, (check_one m.warning_minutes m.timeout_minutes now notify p.1 p.2).1))) } :
            GameSessionManager).sessions = (m.sessions.map
          (fun p => (p.1, (check_one m.warning_minutes m.timeout_minutes now notify p.1 p.2).1))) from rfl]
      rw [lookupA_map_val
        (fun k v => (check_one m.warning_minutes m.timeout_minutes now notify k v).1) m.sessions u]
      rw [hl]
      rfl
    rw [check_sessions_mgr_eq]
    rw [foldl_end_session_sessions ((check_sessions m notify now).2.1) _ hwf1 u]
    simp [hnotin, hl1]

theorem checkSessions_expiry_spec_witness :
    lookupA (check_sessions mgrA notifyAll 5000).1.sessions 1 = none ∧
    lookupA (check_sessions mgrA notifyAll 5000).1.message_to_session 201 = none ∧
    (lookupA (check_sessions mgrA notifyAll 1300).1.sessions 1).isSome = true :=
  ⟨(checkSessions_expiry_spec mgrA notifyAll 5000 ⟨by decide, by decide⟩).2.1 1 (by decide),
   (checkSessions_expiry_spec mgrA notifyAll 5000 ⟨by decide, by decide⟩).2.2.1 1 sessA
     (by decide) (by decide) 201 (by decide),
   (checkSessions_expiry_spec mgrA notifyAll 1300 ⟨by decide, by decide⟩).2.2.2 1 sessA
     (by decide) (by decide)⟩

/-- C10: a session already past the timeout threshold at sweep time (not
Ended, warning flag still false) receives at most an expiry send during a
single `check_sessions` call and never a warning send, and its user id is
in the returned expired list — a user who crosses both thresholds between
two sweeps is expired without ever having been warned. -/
theorem checkSessions_expired_skips_warning (m : GameSessionManager)
    (notify : Int → Int → NotifyOutcome) (now : Int) (u : Int) (s : GameSession)
    (hwf : Wf m) (hmem : (u, s) ∈ m.sessions)
    (hne : s.state ≠ SessionState.ended)
    (hto : now - s.last_interaction > minutesDelta m.timeout_minutes)
    (_hwsent : s.warning_sent = false) :
    (∀ e ∈ (check_sessions m notify now).2.2, e.user = u → e.kind = SendKind.expire) ∧
    u ∈ (check_sessions m notify now).2.1 := by
  have hst : (get_state s m.warning_minutes m.timeout_minutes now).2 = SessionState.expired :=
    get_state_timeout s m.warning_minutes m.timeout_minutes now hne hto
  constructor
  · intro e he heu
    rw [check_sessions_events_eq] at he
    rcases List.mem_flatten.1 he with ⟨l, hl, hel⟩
    rcases List.mem_map.1 hl with ⟨p, hp, hp1⟩
    obtain ⟨pu, ps⟩ := p
    rw [← hp1] at hel
    have hpu : e.user = pu :=
      check_one_event_user m.warning_minutes m.timeout_minutes now notify pu ps e hel
    rw [heu] at hpu
    rw [← hpu] at hp
    have hps : ps = s := mem_vals_nodup hwf.1 hp hmem
    rw [hps, ← hpu] at hel
    exact check_one_expired_events m.warning_minutes m.timeout_minutes now notify u s hst e hel
  · rw [check_sessions_expired_eq,
      filterMap_check_one m.warning_minutes m.timeout_minutes now notify m.sessions]
    refine List.mem_map.2 ⟨(u, s), List.mem_filter.2 ⟨hmem, ?_⟩, rfl⟩
    exact decide_eq_true hst

theorem checkSessions_expired_skips_warning_witness :
    1 ∈ (check_sessions mgrA notifyAll 5000).2.1 :=
  (checkSessions_expired_skips_warning mgrA notifyAll 5000 1 sessA ⟨by decide, by decide⟩
    (by decide) (by decide) (by decide) (by decide)).2
